import Mathlib

/-!
Shallow embedding of the active component in
src/frontend/brainworks-health-portal-26c29b39/src/components/detection.jsx
(the uncommented code beginning at the final import block: the styles map,
the BrainWorksApp function with its useState hooks, handleInputChange,
handleFileChange, simulateAnalysis, handleSubmit, and the rendered result
section).  JavaScript values stored in the form record are modelled by a
small sum type, randomness is passed explicitly as rational draws in
[0, 1), and the asynchronous setTimeout continuation of handleSubmit is
reified as a list of pending analysis results on the application state.
-/

namespace BrainWorks

/-- An attached file, as handleFileChange reads it from the file input:
JavaScript File objects expose a name and a MIME type string. -/
structure MriFile where
  name : String
  mime : String
deriving DecidableEq, Repr

/-- JavaScript values that can appear in the formData record: the six text
fields hold strings, hasMRI holds a boolean, mriFile holds a File or null. -/
inductive JSValue where
  | str (s : String)
  | bool (b : Bool)
  | file (f : MriFile)
  | null
deriving DecidableEq, Repr

/-- JavaScript truthiness, as used by the bang-negations in handleSubmit:
the empty string, false and null are falsy; File objects are truthy. -/
def JSValue.truthy : JSValue → Bool
  | .str s => !s.isEmpty
  | .bool b => b
  | .file _ => true
  | .null => false

/-- Names of the fields of the formData record set up by useState. -/
inductive FieldName where
  | firstName | lastName | age | phone | email | symptoms | hasMRI | mriFile
deriving DecidableEq, Repr

/-- The formData record of BrainWorksApp. -/
structure FormData where
  firstName : JSValue
  lastName : JSValue
  age : JSValue
  phone : JSValue
  email : JSValue
  symptoms : JSValue
  hasMRI : JSValue
  mriFile : JSValue
deriving DecidableEq, Repr

/-- Dynamic field read, matching the computed-key access formData[name]. -/
def getField (fd : FormData) : FieldName → JSValue
  | .firstName => fd.firstName
  | .lastName => fd.lastName
  | .age => fd.age
  | .phone => fd.phone
  | .email => fd.email
  | .symptoms => fd.symptoms
  | .hasMRI => fd.hasMRI
  | .mriFile => fd.mriFile

/-- Dynamic field update, matching the spread-with-computed-key
update ( ...prev, [name]: v ) in the change handlers. -/
def setField (fd : FormData) : FieldName → JSValue → FormData
  | .firstName, v => { fd with firstName := v }
  | .lastName, v => { fd with lastName := v }
  | .age, v => { fd with age := v }
  | .phone, v => { fd with phone := v }
  | .email, v => { fd with email := v }
  | .symptoms, v => { fd with symptoms := v }
  | .hasMRI, v => { fd with hasMRI := v }
  | .mriFile, v => { fd with mriFile := v }

/-- The destructured e.target of an input-change event:
const ( name, value, type, checked ) = e.target. -/
structure InputEvent where
  name : FieldName
  value : String
  kind : String
  checked : Bool
deriving DecidableEq, Repr

/-- handleInputChange: setFormData(prev => ( ...prev,
[name]: type === "checkbox" ? checked : value )). -/
def handleInputChange (fd : FormData) (e : InputEvent) : FormData :=
  setField fd e.name (if e.kind = "checkbox" then .bool e.checked else .str e.value)

/-- The result object resolved by simulateAnalysis. -/
structure AnalysisResult where
  status : String
  confidence : String
  detected : Bool
deriving DecidableEq, Repr

/-- The raw confidence value Math.random() * 20 + 80, with the random draw
r passed explicitly. -/
def confidenceValue (r : ℚ) : ℚ := r * 20 + 80

/-- The integer of hundredths produced by toFixed(2): round to the nearest
hundredth, halves away from zero (for the nonnegative range produced here,
round half up coincides with that). -/
def toFixedInt2 (q : ℚ) : ℤ := round (q * 100)

/-- The numeric value denoted by the toFixed(2) rendering of q. -/
def toFixed2 (q : ℚ) : ℚ := (toFixedInt2 q : ℚ) / 100

/-- The decimal string produced by toFixed(2) for the nonnegative values
arising here: integer part, a dot, and the two-digit fractional part. -/
def fmt2 (q : ℚ) : String :=
  let m := (toFixedInt2 q).toNat
  toString (m / 100) ++ "." ++ (if m % 100 < 10 then "0" else "") ++ toString (m % 100)

/-- simulateAnalysis, with the two Math.random() draws d (for the verdict)
and r (for the confidence) passed explicitly: detected is d > 0.5, status
is the corresponding verdict string, confidence is the toFixed(2) string
of r * 20 + 80 suffixed with a percent sign. -/
def simulateAnalysis (d r : ℚ) : AnalysisResult :=
  let detected : Bool := decide (d > 1/2)
  { status := if detected then "Tumor Detected" else "No Tumor Detected"
    confidence := fmt2 (confidenceValue r) ++ "%"
    detected := detected }

/-- The constant passed to setTimeout inside simulateAnalysis. -/
def analysisDelayMs : ℕ := 3000

/-- simulateAnalysis together with the delay it schedules: the promise
resolves to the result after analysisDelayMs milliseconds. -/
def simulateAnalysisTimed (d r : ℚ) : ℕ × AnalysisResult :=
  (analysisDelayMs, simulateAnalysis d r)

/-- The component state of BrainWorksApp: the formData record and the four
further useState hooks.  pending reifies the setTimeout continuations of
in-flight handleSubmit calls: each successful submission appends the result
its awaited simulateAnalysis promise will resolve to, and resolving entry i
runs the continuation after the await. -/
structure AppState where
  formData : FormData
  mriPreview : Option String
  isAnalyzing : Bool
  showResults : Bool
  analysisResult : Option AnalysisResult
  pending : List AnalysisResult
deriving DecidableEq, Repr

/-- The initial state on page load, from the useState initializers. -/
def initialState : AppState :=
  { formData :=
      { firstName := .str ""
        lastName := .str ""
        age := .str ""
        phone := .str ""
        email := .str ""
        symptoms := .str ""
        hasMRI := .bool false
        mriFile := .null }
    mriPreview := none
    isAnalyzing := false
    showResults := false
    analysisResult := none
    pending := [] }

/-- URL.createObjectURL, modelled as a deterministic blob URL derived from
the file. -/
def createObjectURL (f : MriFile) : String := "blob:" ++ f.name

/-- handleFileChange: reads e.target.files[0]; returns unchanged state when
no file is selected, otherwise stores the file in formData.mriFile and,
when its MIME type starts with image/, sets the preview URL. -/
def handleFileChange (st : AppState) (files : List MriFile) : AppState :=
  match files.head? with
  | none => st
  | some file =>
    let st1 := { st with formData := setField st.formData .mriFile (.file file) }
    if file.mime.startsWith "image/" then
      { st1 with mriPreview := some (createObjectURL file) }
    else
      st1

/-- The first guard of handleSubmit:
!formData.firstName or !formData.lastName or !formData.email. -/
def requiredMissing (fd : FormData) : Bool :=
  !fd.firstName.truthy || !fd.lastName.truthy || !fd.email.truthy

/-- The second guard of handleSubmit: formData.hasMRI and !formData.mriFile. -/
def mriMissing (fd : FormData) : Bool :=
  fd.hasMRI.truthy && !fd.mriFile.truthy

/-- The synchronous part of handleSubmit, up to the await: the two guards
each raise an alert and return with the state unchanged; otherwise
isAnalyzing is set, showResults is cleared, and the awaited
simulateAnalysis promise (with draws d, r) is scheduled as a pending
continuation.  The second component is the alert message raised, if any. -/
def handleSubmit (st : AppState) (d r : ℚ) : AppState × Option String :=
  if requiredMissing st.formData then
    (st, some "Please fill all required fields")
  else if mriMissing st.formData then
    (st, some "Please upload MRI image")
  else
    ({ st with
        isAnalyzing := true
        showResults := false
        pending := st.pending ++ [simulateAnalysis d r] }, none)

/-- The continuation of handleSubmit after the await: when pending entry i
exists, its result is stored in analysisResult, isAnalyzing is cleared and
showResults is set; the entry is consumed. -/
def resolveAnalysis (st : AppState) (i : ℕ) : AppState :=
  match st.pending[i]? with
  | some res =>
    { st with
        analysisResult := some res
        isAnalyzing := false
        showResults := true
        pending := st.pending.eraseIdx i }
  | none => st

/-- The events the rendered page can deliver to the component: an input
change on one of the wired fields, a file selection, a form submission
(carrying the two random draws of the analysis it may start), and the
firing of the setTimeout continuation of pending analysis i. -/
inductive Event where
  | change (e : InputEvent)
  | selectFile (files : List MriFile)
  | submit (d r : ℚ)
  | resolve (i : ℕ)

/-- One step of the event-driven component. -/
def stepEvent (st : AppState) : Event → AppState
  | .change e => { st with formData := handleInputChange st.formData e }
  | .selectFile files => handleFileChange st files
  | .submit d r => (handleSubmit st d r).1
  | .resolve i => resolveAnalysis st i

/-- States reachable from page load by user events and timer firings. -/
inductive Reachable : AppState → Prop where
  | init : Reachable initialState
  | next (st : AppState) (ev : Event) : Reachable st → Reachable (stepEvent st ev)

/-- The actions a rendered button could carry; in the commented-out
iterations of the file, the preview button shows an alert dialog and the
download button saves a plain-text blob. -/
inductive Handler where
  | alertDialog (msg : String)
  | downloadBlob (content filename : String)
deriving DecidableEq, Repr

/-- A rendered button: its label and its onClick handler, when one is
attached. -/
structure ButtonView where
  label : String
  onClick : Option Handler
deriving DecidableEq, Repr

/-- The rendered result section. -/
structure ResultsView where
  title : String
  verdictText : String
  verdictStyleDetected : Bool
  confidenceLine : String
  buttons : List ButtonView
deriving DecidableEq, Repr

/-- The result section of the active render: shown only when showResults
holds and a result exists; it displays the status (styled by the detected
flag), the confidence line, and two buttons that carry no onClick
attribute. -/
def renderResults (st : AppState) : Option ResultsView :=
  match st.showResults, st.analysisResult with
  | true, some res =>
    some
      { title := "Diagnostic Verdict"
        verdictText := res.status
        verdictStyleDetected := res.detected
        confidenceLine := "Confidence: " ++ res.confidence
        buttons := [{ label := "Preview Result", onClick := none },
                    { label := "Download PDF", onClick := none }] }
  | _, _ => none

/-- A sample form with the three required fields filled and the MRI flag
off, used to instantiate the submission theorems. -/
def filledForm : FormData :=
  { firstName := .str "Ada"
    lastName := .str "Lovelace"
    age := .str "36"
    phone := .str "555"
    email := .str "ada@example.com"
    symptoms := .str "headache"
    hasMRI := .bool false
    mriFile := .null }

/-- The page-load state with the sample form typed in. -/
def filledState : AppState := { initialState with formData := filledForm }

/-- A sample input-change event on the firstName text input. -/
def sampleEvent : InputEvent :=
  { name := .firstName, value := "Ada", kind := "text", checked := false }

/-- A sample analysis result, for instantiating the display theorems. -/
def sampleShownResult : AnalysisResult :=
  { status := "Tumor Detected", confidence := "90.00%", detected := true }

/-- A state in which the sample result is being displayed. -/
def sampleShownState : AppState :=
  { initialState with showResults := true, analysisResult := some sampleShownResult }

/-- The result section rendered for sampleShownState. -/
def sampleResultsView : ResultsView :=
  { title := "Diagnostic Verdict"
    verdictText := "Tumor Detected"
    verdictStyleDetected := true
    confidenceLine := "Confidence: 90.00%"
    buttons := [{ label := "Preview Result", onClick := none },
                { label := "Download PDF", onClick := none }] }

/-- The change event fired by unchecking the MRI checkbox. -/
def uncheckEvent (v : String) : InputEvent :=
  { name := .hasMRI, value := v, kind := "checkbox", checked := false }

/-- Typing a first name into the empty form. -/
def ev1 : Event := .change { name := .firstName, value := "Ada", kind := "text", checked := false }

/-- Typing a last name. -/
def ev2 : Event := .change { name := .lastName, value := "Lovelace", kind := "text", checked := false }

/-- Typing an email address. -/
def ev3 : Event := .change { name := .email, value := "ada@example.com", kind := "email", checked := false }

/-- The state after filling the three required fields and submitting once,
with the first analysis still pending (the draws of the first submission
are 1 and 0, so it will resolve to a tumor verdict). -/
def midState : AppState :=
  stepEvent (stepEvent (stepEvent (stepEvent initialState ev1) ev2) ev3) (.submit 1 0)

/-- The result the first pending analysis will resolve to. -/
def resTumor : AnalysisResult := simulateAnalysis 1 0

/-- The result the second pending analysis will resolve to. -/
def resNormal : AnalysisResult := simulateAnalysis 0 0

/-- The state after submitting a second time while the first analysis is
still pending (the draws of the second submission are 0 and 0). -/
def raceState : AppState := stepEvent midState (.submit 0 0)

/- Theorems. -/

/-- C1 counterexample: at the random draw r = 0.9998 the raw confidence is
99.996, which toFixed(2) rounds up to the string 100.00, so the formatted
confidence value denotes exactly 100 and does not fall within [80, 100). -/
theorem confidence_formats_to_100_percent :
    (0:ℚ) ≤ 4999/5000 ∧ (4999/5000 : ℚ) < 1 ∧
    toFixed2 (confidenceValue (4999/5000)) = 100 ∧
    ¬ toFixed2 (confidenceValue (4999/5000)) < 100 ∧
    (simulateAnalysis 0 (4999/5000)).confidence = "100.00%" := by
  have hint : toFixedInt2 (confidenceValue (4999/5000)) = 10000 := by
    unfold toFixedInt2 confidenceValue
    rw [round_eq]
    norm_num
  refine ⟨by norm_num, by norm_num, ?_, ?_, ?_⟩
  · unfold toFixed2
    rw [hint]
    norm_num
  · unfold toFixed2
    rw [hint]
    norm_num
  · show fmt2 (confidenceValue (4999/5000)) ++ "%" = "100.00%"
    unfold fmt2
    rw [hint]
    rfl

/-- C1 (amended): for every random draw r in [0, 1) the raw confidence
value r * 20 + 80 lies in the half-open interval [80, 100); the value
denoted by its two-decimal formatting lies in the closed interval
[80, 100] and can reach 100 exactly. -/
theorem confidence_range (r : ℚ) (h0 : 0 ≤ r) (h1 : r < 1) :
    80 ≤ confidenceValue r ∧ confidenceValue r < 100 ∧
    80 ≤ toFixed2 (confidenceValue r) ∧ toFixed2 (confidenceValue r) ≤ 100 := by
  have hv0 : 80 ≤ confidenceValue r := by
    unfold confidenceValue
    nlinarith
  have hv1 : confidenceValue r < 100 := by
    unfold confidenceValue
    nlinarith
  refine ⟨hv0, hv1, ?_, ?_⟩
  · unfold toFixed2 toFixedInt2
    rw [round_eq, le_div_iff₀ (by norm_num : (0:ℚ) < 100)]
    have : (8000:ℤ) ≤ ⌊confidenceValue r * 100 + 1/2⌋ := by
      rw [Int.le_floor]
      push_cast
      nlinarith
    calc (80:ℚ) * 100 = ((8000:ℤ) : ℚ) := by norm_num
    _ ≤ (⌊confidenceValue r * 100 + 1/2⌋ : ℚ) := by exact_mod_cast this
  · unfold toFixed2 toFixedInt2
    rw [round_eq, div_le_iff₀ (by norm_num : (0:ℚ) < 100)]
    have : ⌊confidenceValue r * 100 + 1/2⌋ < 10001 := by
      rw [Int.floor_lt]
      push_cast
      nlinarith
    have h10000 : ⌊confidenceValue r * 100 + 1/2⌋ ≤ 10000 := by omega
    calc (⌊confidenceValue r * 100 + 1/2⌋ : ℚ) ≤ ((10000:ℤ) : ℚ) := by exact_mod_cast h10000
    _ ≤ 100 * 100 := by norm_num

/-- Witness for confidence_range at the draw r = 0. -/
theorem confidence_range_witness :
    80 ≤ confidenceValue 0 ∧ confidenceValue 0 < 100 ∧
    80 ≤ toFixed2 (confidenceValue 0) ∧ toFixed2 (confidenceValue 0) ≤ 100 :=
  confidence_range 0 (le_refl 0) zero_lt_one

/-- C2: when firstName, lastName or email is the empty string, handleSubmit
raises the required-fields alert and returns with the whole state (form,
flags, previous result, pending analyses) unchanged; when all three are
truthy and the MRI guard passes, no alert is raised, isAnalyzing is set,
showResults is cleared, the analysis is scheduled, and the form and the
previous result are untouched. -/
theorem handleSubmit_required_field_gate (st : AppState) (d r : ℚ) :
    ((st.formData.firstName = .str "" ∨ st.formData.lastName = .str "" ∨
      st.formData.email = .str "") →
      handleSubmit st d r = (st, some "Please fill all required fields")) ∧
    (st.formData.firstName.truthy = true → st.formData.lastName.truthy = true →
     st.formData.email.truthy = true → mriMissing st.formData = false →
      (handleSubmit st d r).2 = none ∧
      (handleSubmit st d r).1.isAnalyzing = true ∧
      (handleSubmit st d r).1.showResults = false ∧
      (handleSubmit st d r).1.pending = st.pending ++ [simulateAnalysis d r] ∧
      (handleSubmit st d r).1.formData = st.formData ∧
      (handleSubmit st d r).1.analysisResult = st.analysisResult) := by
  have hemp : JSValue.truthy (.str "") = false := rfl
  constructor
  · intro h
    have hreq : requiredMissing st.formData = true := by
      rcases h with h | h | h <;> simp [requiredMissing, h, hemp]
    simp [handleSubmit, hreq]
  · intro h1 h2 h3 hm
    have hreq : requiredMissing st.formData = false := by
      simp [requiredMissing, h1, h2, h3]
    simp [handleSubmit, hreq, hm]

/-- Witness for handleSubmit_required_field_gate: the empty initial form is
blocked with the alert; the filled sample form starts the analysis. -/
theorem handleSubmit_required_field_gate_witness :
    handleSubmit initialState 0 0 = (initialState, some "Please fill all required fields") ∧
    ((handleSubmit filledState 0 0).2 = none ∧
     (handleSubmit filledState 0 0).1.isAnalyzing = true ∧
     (handleSubmit filledState 0 0).1.showResults = false ∧
     (handleSubmit filledState 0 0).1.pending = filledState.pending ++ [simulateAnalysis 0 0] ∧
     (handleSubmit filledState 0 0).1.formData = filledState.formData ∧
     (handleSubmit filledState 0 0).1.analysisResult = filledState.analysisResult) :=
  ⟨(handleSubmit_required_field_gate initialState 0 0).1 (Or.inl rfl),
   (handleSubmit_required_field_gate filledState 0 0).2 rfl rfl rfl rfl⟩

/-- C3: with the required text fields truthy, handleSubmit rejects the
submission exactly when the hasMRI flag is true and no MRI file is
attached; with the flag false, submission is never blocked on the file. -/
theorem mri_file_required_iff_flag (st : AppState) (d r : ℚ) (b : Bool)
    (h1 : st.formData.firstName.truthy = true) (h2 : st.formData.lastName.truthy = true)
    (h3 : st.formData.email.truthy = true) (hb : st.formData.hasMRI = .bool b)
    (hf : st.formData.mriFile = .null ∨ ∃ fl, st.formData.mriFile = .file fl) :
    ((handleSubmit st d r).2.isSome = true ↔ b = true ∧ st.formData.mriFile = .null) ∧
    (b = false → (handleSubmit st d r).2 = none ∧
      (handleSubmit st d r).1.isAnalyzing = true) := by
  have hreq : requiredMissing st.formData = false := by
    simp [requiredMissing, h1, h2, h3]
  constructor
  · rcases hf with hnull | ⟨fl, hfl⟩
    · cases b
      · have hm : mriMissing st.formData = false := by
          simp [mriMissing, hb, JSValue.truthy]
        simp [handleSubmit, hreq, hm, hnull]
      · have hm : mriMissing st.formData = true := by
          simp [mriMissing, hb, hnull, JSValue.truthy]
        simp [handleSubmit, hreq, hm, hnull]
    · cases b
      · have hm : mriMissing st.formData = false := by
          simp [mriMissing, hb, JSValue.truthy]
        simp [handleSubmit, hreq, hm, hfl]
      · have hm : mriMissing st.formData = false := by
          simp [mriMissing, hb, hfl, JSValue.truthy]
        simp [handleSubmit, hreq, hm, hfl]
  · intro hbf
    have hm : mriMissing st.formData = false := by
      simp [mriMissing, hb, hbf, JSValue.truthy]
    simp [handleSubmit, hreq, hm]

/-- Witness for mri_file_required_iff_flag at the sample form, whose MRI
flag is off and whose MRI file is absent. -/
theorem mri_file_required_iff_flag_witness :
    (((handleSubmit filledState 0 0).2.isSome = true ↔
        false = true ∧ filledState.formData.mriFile = .null) ∧
     (false = false → (handleSubmit filledState 0 0).2 = none ∧
        (handleSubmit filledState 0 0).1.isAnalyzing = true)) :=
  mri_file_required_iff_flag filledState 0 0 false rfl rfl rfl rfl (Or.inl rfl)

/-- C4: every simulated result carries the tumor verdict string exactly when
the verdict draw exceeds one half and the negative verdict string
otherwise, together with the formatted confidence percentage string and the
boolean detected flag equal to the outcome of the draw comparison. -/
theorem simulateAnalysis_verdict_shape (d r : ℚ) :
    ((simulateAnalysis d r).status = "Tumor Detected" ↔ d > 1/2) ∧
    ((simulateAnalysis d r).status = "No Tumor Detected" ↔ ¬ d > 1/2) ∧
    (simulateAnalysis d r).confidence = fmt2 (confidenceValue r) ++ "%" ∧
    (simulateAnalysis d r).detected = decide (d > 1/2) := by
  by_cases hd : d > 1/2 <;>
    simp [simulateAnalysis, hd]

/-- C7: the stub schedules its resolution after the constant 3000
milliseconds: the delay is the same for all submissions and lies within the
2000 to 3000 millisecond band. -/
theorem analysis_delay_fixed_3000ms (d r d2 r2 : ℚ) :
    (simulateAnalysisTimed d r).1 = 3000 ∧
    (simulateAnalysisTimed d r).1 = (simulateAnalysisTimed d2 r2).1 ∧
    2000 ≤ (simulateAnalysisTimed d r).1 ∧ (simulateAnalysisTimed d r).1 ≤ 3000 :=
  ⟨rfl, rfl, by norm_num [simulateAnalysisTimed, analysisDelayMs],
   by norm_num [simulateAnalysisTimed, analysisDelayMs]⟩

/-- C9: the detected flag of a simulated result is true exactly when its
status is the tumor verdict and false exactly when its status is the
negative verdict. -/
theorem detected_flag_matches_status (d r : ℚ) :
    ((simulateAnalysis d r).detected = true ↔
      (simulateAnalysis d r).status = "Tumor Detected") ∧
    ((simulateAnalysis d r).detected = false ↔
      (simulateAnalysis d r).status = "No Tumor Detected") := by
  by_cases hd : d > 1/2 <;>
    simp [simulateAnalysis, hd]

/-- C5: whenever the result section is rendered, its two buttons are
labelled Preview Result and Download PDF and neither carries an onClick
handler, so no alert-dialog preview and no text-blob download is wired to
them in the active code. -/
theorem result_buttons_carry_no_handlers (st : AppState) (v : ResultsView)
    (h : renderResults st = some v) :
    v.buttons = [{ label := "Preview Result", onClick := none },
                 { label := "Download PDF", onClick := none }] ∧
    ∀ b ∈ v.buttons, b.onClick = none := by
  unfold renderResults at h
  split at h
  · injection h with h
    subst h
    refine ⟨rfl, ?_⟩
    intro b hb
    simp at hb
    rcases hb with rfl | rfl <;> rfl
  · exact absurd h (by simp)

/-- Witness for result_buttons_carry_no_handlers at a state displaying the
sample result. -/
theorem result_buttons_carry_no_handlers_witness :
    sampleResultsView.buttons = [{ label := "Preview Result", onClick := none },
                                 { label := "Download PDF", onClick := none }] ∧
    ∀ b ∈ sampleResultsView.buttons, b.onClick = none :=
  result_buttons_carry_no_handlers sampleShownState sampleResultsView rfl

/-- C6: a second submission while an analysis is pending is not blocked:
from the reachable state midState with isAnalyzing set and one pending
analysis, submitting again raises no alert and schedules a second pending
analysis, and the displayed result is that of whichever pending analysis
resolves last, in either resolution order. -/
theorem double_submit_race_last_resolved_wins :
    Reachable midState ∧ Reachable raceState ∧
    midState.isAnalyzing = true ∧
    midState.pending = [resTumor] ∧
    (handleSubmit midState 0 0).2 = none ∧
    (handleSubmit midState 0 0).1 = raceState ∧
    raceState.pending = [resTumor, resNormal] ∧
    resTumor ≠ resNormal ∧
    (resolveAnalysis (resolveAnalysis raceState 0) 0).analysisResult = some resNormal ∧
    (resolveAnalysis (resolveAnalysis raceState 1) 0).analysisResult = some resTumor := by
  have hmid : Reachable midState :=
    .next _ _ (.next _ _ (.next _ _ (.next _ _ .init)))
  have hT : resTumor.detected = true := by
    simp [resTumor, simulateAnalysis]
    norm_num
  have hN : resNormal.detected = false := by
    simp [resNormal, simulateAnalysis]
  have hne : resTumor ≠ resNormal := by
    intro h
    rw [congrArg AnalysisResult.detected h, hN] at hT
    exact Bool.noConfusion hT
  exact ⟨hmid, .next _ _ hmid, rfl, rfl, rfl, rfl, rfl, hne, rfl, rfl⟩

/-- C8: on page load every text field of the form is the empty string, the
MRI flag is false, the MRI file is absent and no analysis result exists;
resolving a pending analysis overwrites the displayed result with that
analysis's outcome, whatever was displayed before. -/
theorem initial_state_empty_result_transient :
    (initialState.formData.firstName = .str "" ∧ initialState.formData.lastName = .str "" ∧
     initialState.formData.age = .str "" ∧ initialState.formData.phone = .str "" ∧
     initialState.formData.email = .str "" ∧ initialState.formData.symptoms = .str "" ∧
     initialState.formData.hasMRI = .bool false ∧ initialState.formData.mriFile = .null ∧
     initialState.analysisResult = none ∧ initialState.showResults = false) ∧
    (∀ (st : AppState) (i : ℕ) (res : AnalysisResult),
      st.pending[i]? = some res → (resolveAnalysis st i).analysisResult = some res) := by
  refine ⟨⟨rfl, rfl, rfl, rfl, rfl, rfl, rfl, rfl, rfl, rfl⟩, ?_⟩
  intro st i res h
  simp [resolveAnalysis, h]

/-- Witness for initial_state_empty_result_transient: resolving the single
pending analysis of a concrete state stores its result. -/
theorem initial_state_empty_result_transient_witness :
    (resolveAnalysis { initialState with pending := [sampleShownResult] } 0).analysisResult =
      some sampleShownResult :=
  initial_state_empty_result_transient.2
    { initialState with pending := [sampleShownResult] } 0 sampleShownResult rfl

/-- C10: an input-change event updates only the named field, storing the
checked boolean for checkbox inputs and the string value otherwise; a file
change with no file selected leaves the state unchanged; and unchecking the
MRI checkbox leaves a previously attached MRI file in place. -/
theorem handleInputChange_frame (fd : FormData) (e : InputEvent) (f : FieldName)
    (hf : f ≠ e.name) :
    getField (handleInputChange fd e) f = getField fd f ∧
    getField (handleInputChange fd e) e.name =
      (if e.kind = "checkbox" then .bool e.checked else .str e.value) ∧
    (∀ st : AppState, handleFileChange st [] = st) ∧
    (∀ (fd2 : FormData) (v : String),
      (handleInputChange fd2 (uncheckEvent v)).mriFile = fd2.mriFile) := by
  refine ⟨?_, ?_, fun st => rfl, fun fd2 v => rfl⟩
  · obtain ⟨n, val, k, c⟩ := e
    cases n <;> cases f <;> simp_all [handleInputChange, setField, getField]
  · obtain ⟨n, val, k, c⟩ := e
    cases n <;> simp [handleInputChange, setField, getField]

/-- Witness for handleInputChange_frame: changing firstName leaves lastName
untouched. -/
theorem handleInputChange_frame_witness :
    getField (handleInputChange initialState.formData sampleEvent) .lastName =
      getField initialState.formData .lastName ∧
    getField (handleInputChange initialState.formData sampleEvent) sampleEvent.name =
      (if sampleEvent.kind = "checkbox" then .bool sampleEvent.checked
       else .str sampleEvent.value) ∧
    (∀ st : AppState, handleFileChange st [] = st) ∧
    (∀ (fd2 : FormData) (v : String),
      (handleInputChange fd2 (uncheckEvent v)).mriFile = fd2.mriFile) :=
  handleInputChange_frame initialState.formData sampleEvent .lastName (by decide)

end BrainWorks
